import Mathlib

/-!
Verification of `pkg/oc/cli/cmd/create/identity.go` (the `oc create identity`
subcommand): a shallow embedding of `Complete`, `Validate` and `Run` on
`CreateIdentityOptions`, together with theorems about the claims of the spec.

Go strings are modelled as Lean `String`, Go `error` values as their message
strings (`none` = nil error), Go pointer-receiver mutation as explicit state
passing, and the external collaborators (the cobra flag values, the factory's
client configuration, the generated client, the printer) as explicit inputs.
-/

/-- A Go `error` value, identified by its message (`fmt.Errorf` output). -/
abbrev GoError := String

/-- An `io.Writer` handle; only its identity matters at this layer. -/
abbrev OutWriter := Nat

/-- The `userapi.Identity` resource, restricted to the fields this command
reads or writes: the object name from its metadata, `ProviderName` and
`ProviderUserName`.  Go zero-values the fields of `&userapi.Identity{}`. -/
structure Identity where
  Name : String := ""
  ProviderName : String := ""
  ProviderUserName : String := ""
deriving DecidableEq, Repr

/-- The `userclient.IdentityInterface` capability as used here: its `Create`
method, `Create(identity) → (identity, error)`. -/
abbrev IdentityClientT := Identity → Except GoError Identity

/-- Modelled from the spec: the `ObjectPrinter` type of the `create` package
(not under `src/`), `func(obj runtime.Object, out io.Writer) error`; the only
objects flowing through this command are identities. -/
abbrev ObjectPrinter := Identity → Option OutWriter → Option GoError

/-- The options struct of the command.  Nilable Go fields (the client
interface, the writer, the printer function) become `Option`s. -/
structure CreateIdentityOptions where
  ProviderName : String := ""
  ProviderUserName : String := ""
  IdentityClient : Option IdentityClientT := none
  DryRun : Bool := false
  OutputFormat : String := ""
  Out : Option OutWriter := none
  Printer : Option ObjectPrinter := none

/-- Go `strings.Split` restricted to a one-character separator, on the
character list of the string: splits around every instance of the separator;
the result always has one more element than the number of separators. -/
def splitOnChar (c : Char) : List Char → List (List Char)
  | [] => [[]]
  | x :: xs =>
    if x = c then
      [] :: splitOnChar c xs
    else
      match splitOnChar c xs with
      | h :: t => (x :: h) :: t
      | [] => [[x]]

/-- Go `strings.Split(s, sep)` for a one-character separator `sep`. -/
def stringsSplit (s : String) (sep : Char) : List String :=
  (splitOnChar sep s.data).map String.mk

/-- Go `fmt` rendering of a `[]string` with the `%v` verb: the elements
space-separated inside square brackets. -/
def goFormatStrings (args : List String) : String :=
  "[" ++ String.intercalate " " args ++ "]"

/-- The external inputs of `Complete` that the command does not compute
itself: the two flag values read from the cobra command, the factory's
`ClientConfig()` result, the construction of the identity client from a
configuration (`userclientinternal.NewForConfig` followed by
`.User().Identities()`), and the `cmdutil.PrintObject` closure over the
command's print flags. -/
structure CompleteEnv where
  dryRunFlag : Bool
  outputFlag : String
  clientConfig : Except GoError Nat
  newForConfig : Nat → Except GoError IdentityClientT
  printObject : ObjectPrinter

/-- The statements of `Complete` after the argument switch: set `DryRun` from
the flag, obtain the client configuration, construct the identity client, set
`OutputFormat` from the flag, and install the printer closure.  Returns the
options state as mutated so far together with the returned error. -/
def completeRest (o : CreateIdentityOptions) (env : CompleteEnv) :
    CreateIdentityOptions × Option GoError :=
  let o := { o with DryRun := env.dryRunFlag }
  match env.clientConfig with
  | Except.error e => (o, some e)
  | Except.ok cfg =>
    match env.newForConfig cfg with
    | Except.error e => (o, some e)
    | Except.ok client =>
      let o := { o with IdentityClient := some client }
      let o := { o with OutputFormat := env.outputFlag }
      let o := { o with Printer := some env.printObject }
      (o, none)

/-- `(o *CreateIdentityOptions) Complete(cmd, f, args)`: the argument switch
followed by `completeRest`.  The pair returned is the options state after the
call (Go mutates through the receiver pointer) and the returned error. -/
def Complete (o : CreateIdentityOptions) (env : CompleteEnv)
    (args : List String) : CreateIdentityOptions × Option GoError :=
  match args with
  | [] =>
    (o, some "identity name in the format <PROVIDER_NAME>:<PROVIDER_USER_NAME> is required")
  | [arg0] =>
    let parts := stringsSplit arg0 ':'
    if parts.length ≠ 2 then
      (o, some "identity name in the format <PROVIDER_NAME>:<PROVIDER_USER_NAME> is required")
    else
      completeRest
        { o with ProviderName := parts[0]!, ProviderUserName := parts[1]! } env
  | _ =>
    (o, some ("exactly one argument (username) is supported, not: " ++
      goFormatStrings args))

/-- `(o *CreateIdentityOptions) Validate()`. -/
def Validate (o : CreateIdentityOptions) : Option GoError :=
  if o.ProviderName.length = 0 then
    some "provider name is required"
  else if o.ProviderUserName.length = 0 then
    some "provider user name is required"
  else if o.IdentityClient.isNone then
    some "IdentityClient is required"
  else if o.Out.isNone then
    some "Out is required"
  else if o.Printer.isNone then
    some "Printer is required"
  else
    none

/-- The identity value `Run` builds locally from the parsed fields. -/
def mkIdentity (o : CreateIdentityOptions) : Identity :=
  { ProviderName := o.ProviderName, ProviderUserName := o.ProviderUserName }

/-- An observable output action of `Run`: a `cmdutil.PrintSuccess` call with
its short-output flag, writer, object, dry-run flag and verb, or a call of the
configured printer with the object and the writer. -/
inductive OutputEvent where
  | printSuccess (useShortOutput : Bool) (out : Option OutWriter)
      (obj : Identity) (dryRun : Bool) (verb : String)
  | printObject (obj : Identity) (out : Option OutWriter)
deriving DecidableEq, Repr

/-- The object an output event carries. -/
def OutputEvent.obj : OutputEvent → Identity
  | OutputEvent.printSuccess _ _ obj _ _ => obj
  | OutputEvent.printObject obj _ => obj

/-- A trace of one `Run` call: the arguments of the `Create` calls it issued,
in order; the output actions it performed, in order; the error it returned
(`none` = nil); and whether it dereferenced a nil function or interface
(which in Go would panic — unreachable for validated options). -/
structure RunTrace where
  createCalls : List Identity
  outputs : List OutputEvent
  ret : Option GoError
  nilPanic : Bool := false
deriving Repr

/-- The tail of `Run` starting at the output-format conditional, with the
`actualIdentity` in hand and the `Create` calls issued so far. -/
def runOutput (o : CreateIdentityOptions) (actualIdentity : Identity)
    (createCalls : List Identity) : RunTrace :=
  let useShortOutput := o.OutputFormat == "name"
  if useShortOutput || o.OutputFormat.length == 0 then
    { createCalls := createCalls
      outputs := [OutputEvent.printSuccess useShortOutput o.Out actualIdentity
        o.DryRun "created"]
      ret := none }
  else
    match o.Printer with
    | none =>
      { createCalls := createCalls, outputs := [], ret := none,
        nilPanic := true }
    | some pr =>
      { createCalls := createCalls
        outputs := [OutputEvent.printObject actualIdentity o.Out]
        ret := pr actualIdentity o.Out }

/-- `(o *CreateIdentityOptions) Run()`: build the identity, unless in dry-run
submit it to the client (propagating an error verbatim), then print. -/
def Run (o : CreateIdentityOptions) : RunTrace :=
  let identity := mkIdentity o
  if !o.DryRun then
    match o.IdentityClient with
    | none =>
      { createCalls := [], outputs := [], ret := none, nilPanic := true }
    | some create =>
      match create identity with
      | Except.error e =>
        { createCalls := [identity], outputs := [], ret := some e }
      | Except.ok actualIdentity => runOutput o actualIdentity [identity]
  else
    runOutput o identity []

/-! ## Helper lemmas -/

theorem splitOnChar_not_mem (c : Char) (u : List Char) (hu : c ∉ u) :
    splitOnChar c u = [u] := by
  induction u with
  | nil => rfl
  | cons x xs ih =>
    have hx : x ≠ c := fun h => hu (h ▸ List.mem_cons_self x xs)
    have hxs : c ∉ xs := fun h => hu (List.mem_cons_of_mem x h)
    simp [splitOnChar, hx, ih hxs]

theorem splitOnChar_sep (c : Char) (p u : List Char) (hp : c ∉ p)
    (hu : c ∉ u) : splitOnChar c (p ++ c :: u) = [p, u] := by
  induction p with
  | nil => simp [splitOnChar, splitOnChar_not_mem c u hu]
  | cons x xs ih =>
    have hx : x ≠ c := fun h => hp (h ▸ List.mem_cons_self x xs)
    have hxs : c ∉ xs := fun h => hp (List.mem_cons_of_mem x h)
    simp [splitOnChar, hx, ih hxs]

theorem stringsSplit_colon (P U : String) (hP : ':' ∉ P.data)
    (hU : ':' ∉ U.data) : stringsSplit (P ++ ":" ++ U) ':' = [P, U] := by
  have hd : (P ++ ":" ++ U).data = P.data ++ ':' :: U.data := by
    simp [String.data_append]
  simp [stringsSplit, hd, splitOnChar_sep ':' P.data U.data hP hU]

theorem completeRest_fields (o : CreateIdentityOptions) (env : CompleteEnv) :
    (completeRest o env).fst.ProviderName = o.ProviderName ∧
    (completeRest o env).fst.ProviderUserName = o.ProviderUserName := by
  unfold completeRest
  rcases env.clientConfig with e | cfg
  · exact ⟨rfl, rfl⟩
  · rcases h : env.newForConfig cfg with e | client <;> simp [h]

/-! ## Claims about `Complete` -/

/-- Claim C1: for one positional argument of the form `P:U` with `P`, `U`
non-empty and containing no further colon, the argument switch of `Complete`
succeeds — the call proceeds exactly as `completeRest` from the state with
`ProviderName = P` and `ProviderUserName = U` — and the resulting options
carry `ProviderName = P` and `ProviderUserName = U`. -/
theorem Complete_wellformed_arg (o : CreateIdentityOptions)
    (env : CompleteEnv) (P U : String) (hP : P ≠ "") (hU : U ≠ "")
    (hPc : ':' ∉ P.data) (hUc : ':' ∉ U.data) :
    Complete o env [P ++ ":" ++ U] =
      completeRest { o with ProviderName := P, ProviderUserName := U } env ∧
    (Complete o env [P ++ ":" ++ U]).fst.ProviderName = P ∧
    (Complete o env [P ++ ":" ++ U]).fst.ProviderUserName = U := by
  have hsplit := stringsSplit_colon P U hPc hUc
  have h1 : Complete o env [P ++ ":" ++ U] =
      completeRest { o with ProviderName := P, ProviderUserName := U } env := by
    simp [Complete, hsplit]
  refine ⟨h1, ?_, ?_⟩
  · rw [h1]
    exact (completeRest_fields _ env).1
  · rw [h1]
    exact (completeRest_fields _ env).2

/-- A concrete environment for evaluating `Complete` at test inputs: both
flags at their defaults, a working factory, a client echoing its argument. -/
def testEnv : CompleteEnv where
  dryRunFlag := false
  outputFlag := ""
  clientConfig := Except.ok 0
  newForConfig := fun _ => Except.ok Except.ok
  printObject := fun _ _ => none

/-- Claim C1 witness at `acme_ldap:adamjones`. -/
theorem Complete_wellformed_arg_witness :
    (Complete {} testEnv ["acme_ldap" ++ ":" ++ "adamjones"]
      ).fst.ProviderName = "acme_ldap" ∧
    (Complete {} testEnv ["acme_ldap" ++ ":" ++ "adamjones"]
      ).fst.ProviderUserName = "adamjones" := by
  have h := Complete_wellformed_arg {} testEnv
    "acme_ldap" "adamjones" (by decide) (by decide) (by decide) (by decide)
  exact ⟨h.2.1, h.2.2⟩

/-- Claim C6: with zero positional arguments, `Complete` fails with the
"identity name ... is required" error, leaving the options untouched and
consulting no part of the environment (in particular, constructing no
client). -/
theorem Complete_zero_args (o : CreateIdentityOptions) (env : CompleteEnv) :
    Complete o env [] =
      (o, some "identity name in the format <PROVIDER_NAME>:<PROVIDER_USER_NAME> is required") := by
  rfl

/-- Claim C7: with one positional argument that does not split on `:` into
exactly two parts, `Complete` fails with the format error, leaving the
options untouched and consulting no part of the environment. -/
theorem Complete_malformed_arg (o : CreateIdentityOptions)
    (env : CompleteEnv) (arg : String)
    (h : (stringsSplit arg ':').length ≠ 2) :
    Complete o env [arg] =
      (o, some "identity name in the format <PROVIDER_NAME>:<PROVIDER_USER_NAME> is required") := by
  simp [Complete, h]

/-- Claim C7 witness at `foo` (one part) and `a:b:c` (three parts). -/
theorem Complete_malformed_arg_witness :
    Complete {} testEnv ["foo"] =
      ({}, some "identity name in the format <PROVIDER_NAME>:<PROVIDER_USER_NAME> is required") ∧
    Complete {} testEnv ["a:b:c"] =
      ({}, some "identity name in the format <PROVIDER_NAME>:<PROVIDER_USER_NAME> is required") :=
  ⟨Complete_malformed_arg _ _ "foo" (by decide),
   Complete_malformed_arg _ _ "a:b:c" (by decide)⟩

/-- Claim C8: with two or more positional arguments, `Complete` fails with
the "exactly one argument" error whose message lists the supplied arguments,
leaving the options untouched. -/
theorem Complete_too_many_args (o : CreateIdentityOptions)
    (env : CompleteEnv) (a b : String) (rest : List String) :
    Complete o env (a :: b :: rest) =
      (o, some ("exactly one argument (username) is supported, not: " ++
        goFormatStrings (a :: b :: rest))) := by
  rfl

/-- A Go `len(s) == 0` test on a string succeeds exactly for the empty
string. -/
theorem string_length_eq_zero (s : String) : s.length = 0 ↔ s = "" := by
  rw [show s.length = s.data.length from rfl, List.length_eq_zero]
  exact ⟨fun h => String.ext (h.trans rfl), fun h => by rw [h]⟩

/-- If the provider name is empty, `Validate` fails with its first check. -/
theorem validate_empty_provider (o : CreateIdentityOptions)
    (h : o.ProviderName = "") :
    Validate o = some "provider name is required" := by
  simp [Validate, h]

/-- Claim C9: for the single argument `:` the argument switch succeeds,
setting both `ProviderName` and `ProviderUserName` to the empty string, and
the malformed input is rejected only later, by `Validate`, with the
"provider name is required" error. -/
theorem Complete_colon_only (o : CreateIdentityOptions)
    (env : CompleteEnv) :
    Complete o env [":"] =
      completeRest { o with ProviderName := "", ProviderUserName := "" } env ∧
    (Complete o env [":"]).fst.ProviderName = "" ∧
    (Complete o env [":"]).fst.ProviderUserName = "" ∧
    Validate (Complete o env [":"]).fst = some "provider name is required" := by
  have hs : stringsSplit ":" ':' = ["", ""] := by decide
  have h1 : Complete o env [":"] =
      completeRest { o with ProviderName := "", ProviderUserName := "" } env := by
    simp [Complete, hs]
  have h2 := completeRest_fields
    { o with ProviderName := "", ProviderUserName := "" } env
  rw [h1]
  exact ⟨rfl, h2.1, h2.2, validate_empty_provider _ h2.1⟩

/-- Claim C10: whenever the argument switch of `Complete` errors (zero
arguments, a single argument not splitting into exactly two parts, or two or
more arguments), the returned options state is exactly the input state: no
field has been modified. -/
theorem Complete_arg_error_no_mutation (o : CreateIdentityOptions)
    (env : CompleteEnv) (args : List String)
    (h : args = [] ∨ (∃ a, args = [a] ∧ (stringsSplit a ':').length ≠ 2) ∨
      2 ≤ args.length) :
    (Complete o env args).fst = o := by
  match args with
  | [] => rfl
  | [a] =>
    rcases h with h | ⟨b, hb, hlen⟩ | h
    · exact absurd h (by simp)
    · cases hb
      simp [Complete, hlen]
    · exact absurd h (by simp)
  | a :: b :: rest => rfl

/-- Claim C10 witness at the argument list `[foo]`. -/
theorem Complete_arg_error_no_mutation_witness :
    (Complete {} testEnv ["foo"]).fst = {} :=
  Complete_arg_error_no_mutation {} testEnv ["foo"]
    (Or.inr (Or.inl ⟨"foo", rfl, by decide⟩))

/-! ## Claims about `Validate` -/

/-- Claim C5: `Validate` errors exactly when one of the five checks fails —
empty provider name, empty provider user name, unset client, unset output
sink, unset printer — the first failing check in that order determines the
error, and with all five satisfied `Validate` returns nil. -/
theorem Validate_characterization (o : CreateIdentityOptions) :
    ((Validate o).isSome ↔ (o.ProviderName = "" ∨ o.ProviderUserName = "" ∨
      o.IdentityClient = none ∨ o.Out = none ∨ o.Printer = none)) ∧
    (o.ProviderName = "" → Validate o = some "provider name is required") ∧
    (o.ProviderName ≠ "" → o.ProviderUserName = "" →
      Validate o = some "provider user name is required") ∧
    (o.ProviderName ≠ "" → o.ProviderUserName ≠ "" →
      o.IdentityClient = none → Validate o = some "IdentityClient is required") ∧
    (o.ProviderName ≠ "" → o.ProviderUserName ≠ "" →
      o.IdentityClient ≠ none → o.Out = none →
      Validate o = some "Out is required") ∧
    (o.ProviderName ≠ "" → o.ProviderUserName ≠ "" →
      o.IdentityClient ≠ none → o.Out ≠ none → o.Printer = none →
      Validate o = some "Printer is required") ∧
    (o.ProviderName ≠ "" → o.ProviderUserName ≠ "" →
      o.IdentityClient ≠ none → o.Out ≠ none → o.Printer ≠ none →
      Validate o = none) := by
  by_cases h1 : o.ProviderName = ""
  · simp [Validate, h1, string_length_eq_zero]
  · by_cases h2 : o.ProviderUserName = ""
    · simp [Validate, h1, h2, string_length_eq_zero]
    · by_cases h3 : o.IdentityClient = none
      · simp [Validate, h1, h2, h3, string_length_eq_zero]
      · by_cases h4 : o.Out = none
        · simp [Validate, h1, h2, h3, h4, string_length_eq_zero]
        · by_cases h5 : o.Printer = none
          · simp [Validate, h1, h2, h3, h4, h5, string_length_eq_zero]
          · simp [Validate, h1, h2, h3, h4, h5, string_length_eq_zero]

/-! ## Claims about `Run` -/

theorem runOutput_createCalls (o : CreateIdentityOptions) (a : Identity)
    (calls : List Identity) : (runOutput o a calls).createCalls = calls := by
  unfold runOutput
  cases h : (o.OutputFormat == "name" || o.OutputFormat.length == 0) with
  | true => simp [h]
  | false => cases hp : o.Printer <;> simp [h, hp]

theorem runOutput_obj (o : CreateIdentityOptions) (a : Identity)
    (calls : List Identity) :
    ∀ ev ∈ (runOutput o a calls).outputs, ev.obj = a := by
  unfold runOutput
  cases h : (o.OutputFormat == "name" || o.OutputFormat.length == 0) with
  | true =>
    intro ev hev
    simp [h] at hev
    simp [hev, OutputEvent.obj]
  | false =>
    cases hp : o.Printer with
    | none => intro ev hev; simp [h, hp] at hev
    | some pr =>
      intro ev hev
      simp [h, hp] at hev
      simp [hev, OutputEvent.obj]

theorem runOutput_short (o : CreateIdentityOptions) (a : Identity)
    (calls : List Identity)
    (h : o.OutputFormat = "" ∨ o.OutputFormat = "name") :
    (runOutput o a calls).outputs =
      [OutputEvent.printSuccess (o.OutputFormat == "name") o.Out a o.DryRun
        "created"] ∧
    (runOutput o a calls).ret = none := by
  have hb : (o.OutputFormat == "name" || o.OutputFormat.length == 0) = true := by
    rcases h with h | h <;> simp [h]
  unfold runOutput
  simp [hb]

theorem runOutput_printer (o : CreateIdentityOptions) (a : Identity)
    (calls : List Identity) (pr : ObjectPrinter) (hpr : o.Printer = some pr)
    (h1 : o.OutputFormat ≠ "") (h2 : o.OutputFormat ≠ "name") :
    (runOutput o a calls).outputs = [OutputEvent.printObject a o.Out] ∧
    (runOutput o a calls).ret = pr a o.Out := by
  have hb1 : (o.OutputFormat == "name") = false := by
    rw [beq_eq_false_iff_ne]
    exact h2
  have hb2 : (o.OutputFormat.length == 0) = false := by
    rw [beq_eq_false_iff_ne]
    exact fun hc => h1 ((string_length_eq_zero _).mp hc)
  unfold runOutput
  simp [hb1, hb2, hpr]

/-- Claim C2: for validated options with dry-run disabled, `Run` calls
`Create` exactly once, with exactly the identity built from the parsed
fields, and when `Create` errors `Run` returns that error unchanged and
performs no output at all. -/
theorem Run_create_error_propagates (o : CreateIdentityOptions)
    (cl : IdentityClientT) (hv : Validate o = none) (hd : o.DryRun = false)
    (hcl : o.IdentityClient = some cl) :
    (Run o).createCalls = [mkIdentity o] ∧
    ∀ e, cl (mkIdentity o) = Except.error e →
      (Run o).ret = some e ∧ (Run o).outputs = [] := by
  cases hc : cl (mkIdentity o) with
  | error e =>
    have hr : Run o =
        { createCalls := [mkIdentity o], outputs := [], ret := some e } := by
      simp [Run, hd, hcl, hc]
    rw [hr]
    exact ⟨rfl, fun e' he' => by
      cases he'
      exact ⟨rfl, rfl⟩⟩
  | ok a =>
    have hr : Run o = runOutput o a [mkIdentity o] := by
      simp [Run, hd, hcl, hc]
    rw [hr]
    refine ⟨runOutput_createCalls o a [mkIdentity o], fun e' he' => ?_⟩
    simp at he'

/-- Claim C2 witness: validated options whose client rejects the create. -/
def errClientOptions : CreateIdentityOptions where
  ProviderName := "acme_ldap"
  ProviderUserName := "adamjones"
  IdentityClient := some fun _ => Except.error "boom"
  DryRun := false
  OutputFormat := ""
  Out := some 0
  Printer := some fun _ _ => none

/-- Claim C2 witness at options whose client returns the error `boom`. -/
theorem Run_create_error_propagates_witness :
    (Run errClientOptions).createCalls = [mkIdentity errClientOptions] ∧
    (Run errClientOptions).ret = some "boom" ∧
    (Run errClientOptions).outputs = [] := by
  have h := Run_create_error_propagates errClientOptions
    (fun _ => Except.error "boom") rfl rfl rfl
  exact ⟨h.1, (h.2 "boom" rfl).1, (h.2 "boom" rfl).2⟩

/-- Claim C3: with dry-run enabled, `Run` issues no `Create` call, and every
output action carries the locally constructed identity. -/
theorem Run_dryRun_skips_create (o : CreateIdentityOptions)
    (h : o.DryRun = true) :
    (Run o).createCalls = [] ∧
    ∀ ev ∈ (Run o).outputs, ev.obj = mkIdentity o := by
  have hr : Run o = runOutput o (mkIdentity o) [] := by
    simp [Run, h]
  rw [hr]
  exact ⟨runOutput_createCalls o (mkIdentity o) [],
    runOutput_obj o (mkIdentity o) []⟩

/-- Claim C3 witness: validated options with dry-run enabled. -/
def dryRunOptions : CreateIdentityOptions where
  ProviderName := "acme_ldap"
  ProviderUserName := "adamjones"
  IdentityClient := some fun _ => Except.error "must not be called"
  DryRun := true
  OutputFormat := ""
  Out := some 0
  Printer := some fun _ _ => none

/-- Claim C3 witness at dry-run options. -/
theorem Run_dryRun_skips_create_witness :
    (Run dryRunOptions).createCalls = [] ∧
    ∀ ev ∈ (Run dryRunOptions).outputs, ev.obj = mkIdentity dryRunOptions :=
  Run_dryRun_skips_create dryRunOptions rfl

/-- Claim C4: on a successful execution of `Run` (the resulting object `a`
is the local identity under dry-run, or the client's successful `Create`
result otherwise): when the output format is empty or `name`, the single
output action is the `PrintSuccess` call — with the short-output flag, the
object, the dry-run flag and the verb `created` — and `Run` returns nil;
for any other format the confirmation is skipped, the single output action
is one call of the configured printer with the object and the output sink,
and `Run` returns the printer's result. -/
theorem Run_output_policy (o : CreateIdentityOptions) (cl : IdentityClientT)
    (pr : ObjectPrinter) (a : Identity) (hv : Validate o = none)
    (hcl : o.IdentityClient = some cl) (hpr : o.Printer = some pr)
    (hsucc : (o.DryRun = true ∧ a = mkIdentity o) ∨
      (o.DryRun = false ∧ cl (mkIdentity o) = Except.ok a)) :
    ((o.OutputFormat = "" ∨ o.OutputFormat = "name") →
      (Run o).outputs =
        [OutputEvent.printSuccess (o.OutputFormat == "name") o.Out a o.DryRun
          "created"] ∧
      (Run o).ret = none) ∧
    (o.OutputFormat ≠ "" → o.OutputFormat ≠ "name" →
      (Run o).outputs = [OutputEvent.printObject a o.Out] ∧
      (Run o).ret = pr a o.Out) := by
  have hr : (∃ calls, Run o = runOutput o a calls) := by
    rcases hsucc with ⟨hd, ha⟩ | ⟨hd, hok⟩
    · exact ⟨[], by simp [Run, hd, ha]⟩
    · exact ⟨[mkIdentity o], by simp [Run, hd, hcl, hok]⟩
  obtain ⟨calls, hr⟩ := hr
  rw [hr]
  exact ⟨fun h => runOutput_short o a calls h,
    fun h1 h2 => runOutput_printer o a calls pr hpr h1 h2⟩

/-- Claim C4 witness options with output format `json`: the printer renders
the object. -/
def jsonOutputOptions : CreateIdentityOptions where
  ProviderName := "acme_ldap"
  ProviderUserName := "adamjones"
  IdentityClient := some Except.ok
  DryRun := false
  OutputFormat := "json"
  Out := some 0
  Printer := some fun _ _ => some "rendered"

/-- Claim C4 witness options with empty output format: the short success
confirmation is printed. -/
def shortOutputOptions : CreateIdentityOptions where
  ProviderName := "acme_ldap"
  ProviderUserName := "adamjones"
  IdentityClient := some Except.ok
  DryRun := false
  OutputFormat := ""
  Out := some 0
  Printer := some fun _ _ => some "rendered"

/-- Claim C4 witness at output format `json` (printer invoked, its result
returned) and at the empty output format (short confirmation printed). -/
theorem Run_output_policy_witness :
    ((Run jsonOutputOptions).outputs =
      [OutputEvent.printObject (mkIdentity jsonOutputOptions) (some 0)] ∧
     (Run jsonOutputOptions).ret = some "rendered") ∧
    ((Run shortOutputOptions).outputs =
      [OutputEvent.printSuccess false (some 0) (mkIdentity shortOutputOptions)
        false "created"] ∧
     (Run shortOutputOptions).ret = none) := by
  have h1 := Run_output_policy jsonOutputOptions Except.ok
    (fun _ _ => some "rendered") (mkIdentity jsonOutputOptions) rfl rfl rfl
    (Or.inr ⟨rfl, rfl⟩)
  have h2 := Run_output_policy shortOutputOptions Except.ok
    (fun _ _ => some "rendered") (mkIdentity shortOutputOptions) rfl rfl rfl
    (Or.inr ⟨rfl, rfl⟩)
  have h1e := h1.2 (by decide) (by decide)
  have h2e := h2.1 (Or.inl rfl)
  exact ⟨⟨h1e.1, h1e.2⟩, ⟨h2e.1, h2e.2⟩⟩
